import Mathlib

/-!
Verification of the accelerator-aware job-provisioning pipeline in
`caliban/cluster/cluster.py`.

The Python functions are shallowly embedded as executable Lean definitions.
Conventions used throughout:

* External API calls (`compute` / `container` / `tpu` discovery clients) are
  modelled as explicit parameters holding the value the call would return
  (`Option` mirrors Python's `None`-on-error convention).
* A Python function that can raise is embedded with an `Except`/`Option`
  result, the error constructor standing for the exception.
* Python strings that undergo per-character case analysis are modelled as
  lists of Unicode code points (`List Nat`), so that `lower()` / `isalnum()`
  become arithmetic on code points; strings that are only compared or
  concatenated wholesale stay Lean `String`s.
* Python `dict`s built from key/value pair lists are modelled as
  insertion-ordered association lists with last-write-wins semantics
  (`pyDict` below), exactly the semantics of `dict([...])`.
-/

/-- Decidable equality on `Except`, so that concrete runs of the embedded
fallible functions can be checked by `decide`. -/
instance {ε α : Type} [DecidableEq ε] [DecidableEq α] : DecidableEq (Except ε α) :=
  fun x y =>
    match x, y with
    | .error e, .error f => decidable_of_iff (e = f) (by simp)
    | .ok a, .ok b => decidable_of_iff (a = b) (by simp)
    | .error _, .ok _ => isFalse (fun h => Except.noConfusion h)
    | .ok _, .error _ => isFalse (fun h => Except.noConfusion h)

namespace Caliban

/-- GPU kinds (the `GPU` enum from `caliban.cloud.types`, referenced by
`cluster.py`; the enum itself lives outside this file's sources, its members
are the NVIDIA accelerators named by the code and spec). -/
inductive GPU where
  | K80
  | P100
  | V100
  | P4
  | T4
  | A100
deriving DecidableEq, Repr

/-- TPU kinds (the `TPU` enum from `caliban.cloud.types`). -/
inductive TPU where
  | V2
  | V3
deriving DecidableEq, Repr

/-- The `GPUSpec(gpu, count)` named tuple from `caliban.cloud.types`. -/
structure GPUSpec where
  gpu : GPU
  count : Nat
deriving DecidableEq, Repr

/-- The `TPUSpec(tpu, count)` named tuple from `caliban.cloud.types`. -/
structure TPUSpec where
  tpu : TPU
  count : Nat
deriving DecidableEq, Repr

/-- An accelerator is either a GPU kind or a TPU kind
(`Accelerator = Union[GPU, TPU]` in `caliban.cloud.types`). -/
inductive Accel where
  | gpu (g : GPU)
  | tpu (t : TPU)
deriving DecidableEq, Repr

/-- Embedding of `Cluster.convert_accel_spec` (cluster.py:1093-1111): converts an optional
GPU spec and an optional TPU spec into a single `(accelerator, count)` pair,
rejecting the combination of both (`None` result), and defaulting to
`(None, 1)` (CPU) when neither is given. -/
def convert_accel_spec (gpu_spec : Option GPUSpec) (tpu_spec : Option TPUSpec) :
    Option (Option Accel × Nat) :=
  if gpu_spec.isSome && tpu_spec.isSome then
    -- logging.error('error: cannot specify both tpu and gpu'); return None
    none
  else
    match gpu_spec with
    | some g => some (some (Accel.gpu g.gpu), g.count)
    | none =>
      match tpu_spec with
      | some t => some (some (Accel.tpu t.tpu), t.count)
      | none => some (none, 1)

/-- Code points of a Lean string literal, used to write concrete Python
strings in the `List Nat` code-point model. -/
def codes (s : String) : List Nat :=
  s.data.map Char.toNat

/-- Python `str.lower()` on one code point, restricted to the ASCII range the
sanitizer manipulates: maps `A`-`Z` (65-90) to `a`-`z` (97-122) and leaves
every other code point unchanged. -/
def pyLower (c : Nat) : Nat :=
  if 65 ≤ c ∧ c ≤ 90 then c + 32 else c

/-- Python `str.isalnum()` on one code point, restricted to ASCII letters and
digits. -/
def pyIsAlnum (c : Nat) : Bool :=
  decide ((65 ≤ c ∧ c ≤ 90) ∨ (97 ≤ c ∧ c ≤ 122) ∨ (48 ≤ c ∧ c ≤ 57))

/-- Inner helper `valid` of `_sanitize_job_name`: alphanumeric, `-` (45) or
`.` (46). -/
def dnsValidChar (c : Nat) : Bool :=
  pyIsAlnum c || c == 45 || c == 46

/-- Embedding of `_sanitize_job_name` (cluster.py:380-404).  The string is the
list of its code points.  `none` models the `IndexError` that `name[0]` raises
on the empty string; on a non-empty string the accesses `name[0]` and
`name[-1]` are the `head?`/`getLast?` of provably non-empty lists, so the
happy path always produces `some`. -/
def _sanitize_job_name (name : List Nat) : Option (List Nat) :=
  let lowered := name.map pyLower
  match lowered.head? with
  | none => none
  | some first =>
    let n1 := if pyIsAlnum first then lowered else codes "job-" ++ lowered
    match n1.getLast? with
    | none => none
    | some last =>
      let n2 := if pyIsAlnum last then n1 else n1 ++ codes "-0"
      some (n2.map fun c => if dnsValidChar c then c else 45)

/-- Association-list lookup with the semantics of Python's `d[k]` / `k in d`
on the dict model below: the first (for a well-formed dict, the only) binding
of the key. -/
def dictGet : List (GPU × Nat) → GPU → Option Nat
  | [], _ => none
  | p :: rest, k => if p.1 = k then some p.2 else dictGet rest k

/-- One step of Python dict construction: inserting `k ↦ v` overwrites an
existing binding of `k` in place, otherwise appends the new binding. -/
def pyDictInsert (d : List (GPU × Nat)) (k : GPU) (v : Nat) : List (GPU × Nat) :=
  if k ∈ d.map Prod.fst then
    d.map fun p => if p.1 = k then (k, v) else p
  else
    d ++ [(k, v)]

/-- Python's `dict([...])` over a pair list: insertion-ordered keys,
last-write-wins values. -/
def pyDict (l : List (GPU × Nat)) : List (GPU × Nat) :=
  l.foldl (fun d p => pyDictInsert d p.1 p.2) []

/-- Outcome of one run of `_validate_gpu_spec_against_limits`, recording which
branch fired and what the error diagnostics reported. -/
inductive LimitCheck where
  | valid
  | unsupportedType (limit_type : String) (shown : Option GPU)
  | countExceeded (limit_type : String) (maxAvail : Nat)
  | keyError
deriving DecidableEq, Repr

/-- Embedding of `_validate_gpu_spec_against_limits` (cluster.py:131-160).
When the requested kind is absent from `gpu_limits`, the code logs
`unsupported gpu type` and enters `for g in gpu_limits: print(g); return
False`: with a non-empty dict this prints only the first key and returns
`False` (`.unsupportedType` records the printed key); with an empty dict the
loop body never runs, control falls through to
`if gpu_spec.count > gpu_limits[gpu_spec.gpu]`, and the subscript raises
`KeyError` (`.keyError`). -/
def _validate_gpu_spec_against_limits (gpu_spec : GPUSpec)
    (gpu_limits : List (GPU × Nat)) (limit_type : String) : LimitCheck :=
  match dictGet gpu_limits gpu_spec.gpu with
  | none =>
    match gpu_limits with
    | [] => .keyError
    | g :: _ => .unsupportedType limit_type (some g.1)
  | some m =>
    if gpu_spec.count > m then .countExceeded limit_type m
    else .valid

/-- Observable result of the Python function: `ok true` / `ok false` for a
normal return, `error` for the raised `KeyError`. -/
def LimitCheck.result : LimitCheck → Except Unit Bool
  | .valid => .ok true
  | .keyError => .error ()
  | _ => .ok false

/-- Embedding of `Cluster.validate_gpu_spec` (cluster.py:1178-1212).  The two
catalog fetches (`_get_zone_gpu_types` via the compute api, and
`self.get_gpu_types()` via the container api) are modelled by the parameters
`zone_gpus` and `cluster_gpus`, `none` meaning the fetch failed; the code
builds `dict([(x.gpu, x.count) for x in ...])` from each fetched list and
checks the zone limits strictly before the cluster limits, short-circuiting
on the first failure. -/
def validate_gpu_spec (zone_gpus cluster_gpus : Option (List GPUSpec))
    (gpu_spec : Option GPUSpec) : Except Unit Bool :=
  match gpu_spec with
  | none => .ok true
  | some spec =>
    match zone_gpus with
    | none => .ok false
    | some zg =>
      match (_validate_gpu_spec_against_limits spec
              (pyDict (zg.map fun x => (x.gpu, x.count))) "zone").result with
      | .error e => .error e
      | .ok false => .ok false
      | .ok true =>
        match cluster_gpus with
        | none => .ok false
        | some cg =>
          (_validate_gpu_spec_against_limits spec
            (pyDict (cg.map fun x => (x.gpu, x.count))) "cluster").result

/-- One region quota entry as consumed by `_generate_resource_limits`
(the `metric` / `limit` fields of the compute api's quota dicts). -/
structure Quota where
  metric : String
  limit : Int
deriving DecidableEq, Repr

/-- One emitted resource limit (`resourceType` / `maximum`); the code stores
the maximum as `str(...)`. -/
structure ResourceLimitEntry where
  resourceType : String
  maximum : String
deriving DecidableEq, Repr

/-- Fixed GB-per-vCPU ceiling (cluster.py:69). -/
def _MAX_GB_PER_CPU : Int := 64

/-- Character class `[A-Z0-9]` of the gpu-metric regex. -/
def gpuClassChar (c : Char) : Bool :=
  c.isUpper || c.isDigit

/-- Matching of the anchored regex `^NVIDIA_(?P<gpu>[A-Z0-9]+)_GPUS$`
(cluster.py:323): the metric must decompose as `NVIDIA_` + a non-empty run of
`[A-Z0-9]` + `_GPUS`; the decomposition is unique because the class excludes
`_`.  Returns the captured group. -/
def gpuMetricKind (metric : String) : Option String :=
  let cs := metric.data
  let n := cs.length
  if 13 ≤ n ∧ cs.take 7 = "NVIDIA_".data ∧ cs.drop (n - 5) = "_GPUS".data
      ∧ ((cs.drop 7).take (n - 12)).all gpuClassChar
  then some (String.mk ((cs.drop 7).take (n - 12)))
  else none

/-- Embedding of `_generate_resource_limits` (cluster.py:303-349).  The quota
fetch `_get_region_quotas` is modelled by the `quotas` parameter (`none` =
fetch failed).  The loop appends to `limits` exactly as the source does:
`CPUS` emits a `cpu` entry then a `memory` entry scaled by
`_MAX_GB_PER_CPU`; a metric matching the gpu regex emits one
`nvidia-tesla-<kind lower-cased>` entry; anything else is skipped. -/
def _generate_resource_limits (quotas : Option (List Quota)) :
    Option (List ResourceLimitEntry) :=
  match quotas with
  | none => none
  | some qs =>
    some (qs.foldl
      (fun limits q =>
        if q.metric = "CPUS" then
          limits ++ [⟨"cpu", toString q.limit⟩,
                     ⟨"memory", toString (q.limit * _MAX_GB_PER_CPU)⟩]
        else
          match gpuMetricKind q.metric with
          | none => limits
          | some g =>
            limits ++ [⟨"nvidia-tesla-" ++ String.mk (g.data.map Char.toLower),
                        toString q.limit⟩])
      [])

/-- Limits contributed by a single quota entry (the body of the loop of
`_generate_resource_limits` for one `q`), used to state that the loop
preserves the input's relative order. -/
def quotaEntryLimits (q : Quota) : List ResourceLimitEntry :=
  if q.metric = "CPUS" then
    [⟨"cpu", toString q.limit⟩, ⟨"memory", toString (q.limit * _MAX_GB_PER_CPU)⟩]
  else
    match gpuMetricKind q.metric with
    | none => []
    | some g => [⟨"nvidia-tesla-" ++ String.mk (g.data.map Char.toLower),
                  toString q.limit⟩]

/-- Embedding of the submission loop at the end of `_job_submit`
(cluster.py:1686-1700): each generated job is passed to
`cluster.submit_job` (modelled by `submit_job`, `none` = submission failed);
a failure is logged and skipped, a success is appended to `submitted`;
the loop always visits every job and returns `submitted`. -/
def _job_submit_loop {α β : Type} (submit_job : α → Option β) (jobs : List α) :
    List β :=
  jobs.foldl
    (fun submitted j =>
      match submit_job j with
      | none => submitted
      | some sj => submitted ++ [sj])
    []

/-- Response dict of an operation `get` call, reduced to the one field the
polling loop inspects. -/
structure OpRsp where
  status : String
deriving DecidableEq, Repr

/-- Default `conditions` argument of `_wait_for_operation`. -/
def _wait_conditions_default : List String := ["DONE", "ABORTING"]

/-- Embedding of `_wait_for_operation` (cluster.py:100-127).  The api client
is modelled by `fetch`, giving the response of the `k`-th
`get(name=name).execute()` call (`none` = Python `None`).  `fuel` bounds the
number of loop iterations so the definition is total; an overall `none` means
the fuel ran out with the loop still polling (the source loops forever in
that case, sleeping `sleep_sec` between polls).  On a return, the result
carries the returned value (`none` = the error return after a failed fetch)
paired with the total number of fetches performed. -/
def _wait_for_operation (fetch : Nat → Option OpRsp) (conditions : List String) :
    Nat → Nat → Option (Option OpRsp × Nat)
  | 0, _ => none
  | fuel + 1, k =>
    match fetch k with
    | none => some (none, k + 1)
    | some rsp =>
      if conditions.contains rsp.status then some (some rsp, k + 1)
      else _wait_for_operation fetch conditions fuel (k + 1)

/-- Embedding of the TPU-validation block of `_job_submit`
(cluster.py:1628-1641): with no TPU spec the block is skipped (`true` =
submission proceeds); with a TPU spec, `cluster.get_tpu_types()` (modelled by
`available_tpu`, `none` = fetch failed) must succeed and the exact spec must
be a member (`tpu_spec not in available_tpu` aborts). -/
def _job_submit_tpu_validation (tpu_spec : Option TPUSpec)
    (available_tpu : Option (List TPUSpec)) : Bool :=
  match tpu_spec with
  | none => true
  | some spec =>
    match available_tpu with
    | none => false
    | some avail => decide (spec ∈ avail)

/-- Reading a Python local variable: `none` means the name is unbound and the
read raises `NameError`. -/
def readLocal {v : Type} (binding : Option v) : Except Unit v :=
  match binding with
  | none => .error ()
  | some a => .ok a

/-- Possible outcomes of `Cluster.delete`. -/
inductive DeleteOutcome where
  | earlyError
  | nameError
  | notDone
  | success
deriving DecidableEq, Repr

/-- Embedding of `Cluster.delete` (cluster.py:1262-1288).
`delete_cluster_op` models the result of
`self._cluster_client.delete_cluster(...)` (carrying its `.name`), and
`wait_result` the value `_wait_for_operation` comes back with.  The locals
the source ever assigns are `op` (first the delete operation, then rebound to
the wait result) and `op_name`; the name `rsp` is assigned neither in
`delete` nor at module scope, so its binding is `none` and the status check
`rsp['status'] != 'DONE'` raises `NameError`.  The two arms after the read
show what the code would do with a bound `rsp`. -/
def Cluster_delete (delete_cluster_op : Option String) (wait_result : Option OpRsp) :
    DeleteOutcome :=
  match delete_cluster_op with
  | none => .earlyError
  | some _op_name =>
    let _op : Option (Option OpRsp) := some wait_result
    let rsp : Option OpRsp := none
    match readLocal rsp with
    | .error _ => .nameError
    | .ok r => if r.status ≠ "DONE" then .notDone else .success

end Caliban

open Caliban

/-- Claim C7: `convert_accel_spec(gpu_spec, tpu_spec)` returns the rejection
value `None` when both arguments are non-null; returns
`(gpu_spec.gpu, gpu_spec.count)` when only the GPU spec is non-null; returns
`(tpu_spec.tpu, tpu_spec.count)` when only the TPU spec is non-null; and
returns `(None, 1)` when both are null. -/
theorem claim7_convert_accel_spec :
    (∀ g t, convert_accel_spec (some g) (some t) = none) ∧
    (∀ g, convert_accel_spec (some g) none = some (some (Accel.gpu g.gpu), g.count)) ∧
    (∀ t, convert_accel_spec none (some t) = some (some (Accel.tpu t.tpu), t.count)) ∧
    convert_accel_spec none none = some (none, 1) := by
  refine ⟨fun g t => rfl, fun g => rfl, fun t => rfl, rfl⟩

/-- Claim C4 counterexample: on the input `"My Job!"` the sanitizer does not
return `"job-my-job-0"` (its lower-cased first character `m` is already
alphanumeric, so no `job-` prefix is added, and the trailing `!` is both
replaced by `-` and followed by the appended `-0`). -/
theorem claim4_counterexample :
    _sanitize_job_name (codes "My Job!") ≠ some (codes "job-my-job-0") := by
  decide

/-- Claim C4 as amended: `_sanitize_job_name` applied to `"My Job!"` returns
`"my-job--0"`. -/
theorem claim4_sanitize_my_job :
    _sanitize_job_name (codes "My Job!") = some (codes "my-job--0") := by
  decide

/-- Helper: the submission `foldl` with any starting accumulator collects the
successes in order, i.e. is `filterMap` prefixed by the accumulator. -/
theorem foldl_submit_eq_filterMap {α β : Type} (submit : α → Option β) :
    ∀ (jobs : List α) (acc : List β),
      List.foldl
        (fun submitted j =>
          match submit j with
          | none => submitted
          | some sj => submitted ++ [sj]) acc jobs
        = acc ++ jobs.filterMap submit := by
  intro jobs
  induction jobs with
  | nil => intro acc; simp
  | cons j js ih =>
    intro acc
    cases h : submit j with
    | none => simp [List.foldl_cons, h, ih, List.filterMap_cons]
    | some sj => simp [List.foldl_cons, h, ih, List.filterMap_cons]

/-- Claim C5: in the submission loop of `_job_submit` each generated job is
submitted independently: the loop visits every job, a failed submission is
skipped, and the returned list is exactly the in-order `filterMap` of the
successes — so with 3 jobs whose 2nd submission fails, the result holds
exactly the 2 successes and the 3rd job was still attempted (its success is
in the result). -/
theorem claim5_job_submit_loop :
    (∀ (α β : Type) (submit_job : α → Option β) (jobs : List α),
      _job_submit_loop submit_job jobs = jobs.filterMap submit_job) ∧
    _job_submit_loop (fun n => if n = 2 then none else some n) [1, 2, 3] = [1, 3] := by
  constructor
  · intro α β submit jobs
    simpa [_job_submit_loop] using foldl_submit_eq_filterMap submit jobs []
  · decide

/-- Claim C6: `_wait_for_operation` repeatedly fetches the operation status
(default terminal set `{DONE, ABORTING}`); a fetch whose status is terminal
returns that very response immediately; a fetch returning no response returns
the failure value `None` instead of polling on; a non-terminal status polls
again; and on the status sequence `PENDING, PENDING, DONE` it returns the
`DONE` response after exactly 3 fetches. -/
theorem claim6_wait_for_operation :
    _wait_conditions_default = ["DONE", "ABORTING"] ∧
    (∀ (fetch : Nat → Option OpRsp) (conds : List String) (fuel k : Nat) (rsp : OpRsp),
      fetch k = some rsp → conds.contains rsp.status = true →
      _wait_for_operation fetch conds (fuel + 1) k = some (some rsp, k + 1)) ∧
    (∀ (fetch : Nat → Option OpRsp) (conds : List String) (fuel k : Nat),
      fetch k = none →
      _wait_for_operation fetch conds (fuel + 1) k = some (none, k + 1)) ∧
    (∀ (fetch : Nat → Option OpRsp) (conds : List String) (fuel k : Nat) (rsp : OpRsp),
      fetch k = some rsp → conds.contains rsp.status = false →
      _wait_for_operation fetch conds (fuel + 1) k =
        _wait_for_operation fetch conds fuel (k + 1)) ∧
    _wait_for_operation (fun i => some ⟨if i < 2 then "PENDING" else "DONE"⟩)
        _wait_conditions_default 10 0 = some (some ⟨"DONE"⟩, 3) := by
  refine ⟨rfl, ?_, ?_, ?_, by decide⟩
  · intro fetch conds fuel k rsp hf hc
    have hm : rsp.status ∈ conds := by simpa using hc
    simp [_wait_for_operation, hf, hm]
  · intro fetch conds fuel k hf
    simp [_wait_for_operation, hf]
  · intro fetch conds fuel k rsp hf hc
    have hm : rsp.status ∉ conds := by simpa using hc
    simp [_wait_for_operation, hf, hm]

/-- Witness for claim C6: the terminal-status conjunct applied to a concrete
fetch sequence, both hypotheses discharged by evaluation. -/
theorem claim6_witness :
    _wait_for_operation (fun _ => some ⟨"DONE"⟩) _wait_conditions_default 4 0
      = some (some ⟨"DONE"⟩, 1) :=
  claim6_wait_for_operation.2.1 (fun _ => some ⟨"DONE"⟩) _wait_conditions_default
    3 0 ⟨"DONE"⟩ rfl (by decide)

/-- Claim C8: the TPU validation in `_job_submit` accepts a requested TPU
spec iff the exact `(kind, count)` pair is a member of the supported list —
an exact membership test, not a count ceiling (a request of `(V2, 4)` is
rejected even when `(V2, 8)` is supported) — and aborts when the supported
list cannot be obtained. -/
theorem claim8_tpu_validation :
    (∀ (spec : TPUSpec) (avail : List TPUSpec),
      _job_submit_tpu_validation (some spec) (some avail) = true ↔ spec ∈ avail) ∧
    (∀ spec : TPUSpec, _job_submit_tpu_validation (some spec) none = false) ∧
    _job_submit_tpu_validation (some ⟨TPU.V2, 4⟩) (some [⟨TPU.V2, 8⟩]) = false := by
  refine ⟨?_, fun spec => rfl, by decide⟩
  intro spec avail
  simp [_job_submit_tpu_validation]

/-- Claim C10: once the delete operation has been issued and waited on,
`Cluster.delete` always hits the read of the never-assigned name `rsp` (the
wait result is bound to `op`) and raises `NameError`; in particular no run of
`delete` can reach the `successfully deleted` branch. -/
theorem claim10_delete_unbound_rsp :
    (∀ (op_name : String) (wait_result : Option OpRsp),
      Cluster_delete (some op_name) wait_result = DeleteOutcome.nameError) ∧
    (∀ (delete_cluster_op : Option String) (wait_result : Option OpRsp),
      Cluster_delete delete_cluster_op wait_result ≠ DeleteOutcome.success) := by
  constructor
  · intro op_name wait_result; rfl
  · intro dop w
    cases dop <;> simp [Cluster_delete, readLocal]

/-- Claim C9 (the code is at fault here): when the requested GPU kind is
absent from the limits dict, `_validate_gpu_spec_against_limits` returns
`False` (showing only the dict's first key in its diagnostic) whenever the
dict is non-empty, but on the EMPTY dict the early-return loop never runs and
`gpu_limits[gpu_spec.gpu]` raises `KeyError` — contradicting the claim and
the function's own docstring (`False otherwise`). -/
theorem claim9_empty_limits_keyerror :
    _validate_gpu_spec_against_limits ⟨GPU.P100, 2⟩ [] "zone" = LimitCheck.keyError ∧
    (_validate_gpu_spec_against_limits ⟨GPU.P100, 2⟩ [] "zone").result
      = Except.error () ∧
    (∀ (spec : GPUSpec) (g : GPU) (v : Nat) (rest : List (GPU × Nat)),
      dictGet ((g, v) :: rest) spec.gpu = none →
      _validate_gpu_spec_against_limits spec ((g, v) :: rest) "zone"
        = LimitCheck.unsupportedType "zone" (some g)) := by
  refine ⟨rfl, rfl, ?_⟩
  intro spec g v rest h
  simp [_validate_gpu_spec_against_limits, h]

/-- Witness for claim C9: the non-empty-dict conjunct at a concrete absent
kind. -/
theorem claim9_witness :
    _validate_gpu_spec_against_limits ⟨GPU.P100, 2⟩ [(GPU.V100, 4)] "zone"
      = LimitCheck.unsupportedType "zone" (some GPU.V100) :=
  claim9_empty_limits_keyerror.2.2 ⟨GPU.P100, 2⟩ GPU.V100 4 [] (by decide)

/-- Helper: the quota loop of `_generate_resource_limits`, started from any
accumulator, appends exactly the per-quota emissions in input order. -/
theorem foldl_quota_eq_flatMap (qs : List Quota) :
    ∀ acc : List ResourceLimitEntry,
      List.foldl
        (fun limits q =>
          if q.metric = "CPUS" then
            limits ++ [⟨"cpu", toString q.limit⟩,
                       ⟨"memory", toString (q.limit * _MAX_GB_PER_CPU)⟩]
          else
            match gpuMetricKind q.metric with
            | none => limits
            | some g =>
              limits ++ [⟨"nvidia-tesla-" ++ String.mk (g.data.map Char.toLower),
                          toString q.limit⟩])
        acc qs
      = acc ++ qs.flatMap quotaEntryLimits := by
  induction qs with
  | nil => intro acc; simp
  | cons q qs ih =>
    intro acc
    by_cases hm : q.metric = "CPUS"
    · simp [List.foldl_cons, hm, ih, quotaEntryLimits]
    · cases hg : gpuMetricKind q.metric with
      | none => simp [List.foldl_cons, hm, hg, ih, quotaEntryLimits]
      | some g => simp [List.foldl_cons, hm, hg, ih, quotaEntryLimits]

/-- Claim C2: for every quota list, `_generate_resource_limits` emits, in the
input's relative order, `cpu = L` then `memory = 64 * L` for a `CPUS` metric
of limit `L`, one `nvidia-tesla-<kind lower-cased> = L` entry for a metric
matching `NVIDIA_<KIND>_GPUS`, and nothing for any other metric; on
`[{CPUS, 10}, {NVIDIA_V100_GPUS, 4}]` it yields exactly
`[{cpu, 10}, {memory, 640}, {nvidia-tesla-v100, 4}]`. -/
theorem claim2_generate_resource_limits :
    (∀ qs : List Quota,
      _generate_resource_limits (some qs) = some (qs.flatMap quotaEntryLimits)) ∧
    (∀ q : Quota, quotaEntryLimits q =
      if q.metric = "CPUS" then
        [⟨"cpu", toString q.limit⟩, ⟨"memory", toString (q.limit * 64)⟩]
      else
        match gpuMetricKind q.metric with
        | none => []
        | some g => [⟨"nvidia-tesla-" ++ String.mk (g.data.map Char.toLower),
                      toString q.limit⟩]) ∧
    _generate_resource_limits (some [⟨"CPUS", 10⟩, ⟨"NVIDIA_V100_GPUS", 4⟩])
      = some [⟨"cpu", "10"⟩, ⟨"memory", "640"⟩, ⟨"nvidia-tesla-v100", "4"⟩] := by
  refine ⟨?_, fun q => rfl, by decide⟩
  intro qs
  simpa [_generate_resource_limits] using foldl_quota_eq_flatMap qs []

/-- Helper: the per-limits check succeeds exactly when the requested kind has
a binding in the dict and the requested count is within it. -/
theorem validate_limits_valid_iff (spec : GPUSpec) (d : List (GPU × Nat)) (t : String) :
    _validate_gpu_spec_against_limits spec d t = LimitCheck.valid ↔
      ∃ m, dictGet d spec.gpu = some m ∧ spec.count ≤ m := by
  unfold _validate_gpu_spec_against_limits
  cases h : dictGet d spec.gpu with
  | none => cases d <;> simp [h]
  | some m =>
    by_cases hc : spec.count > m <;> simp [h, hc] <;> omega

/-- Claim C1: `validate_gpu_spec` returns `True` for a `None` (CPU-only)
spec; otherwise it returns `True` iff the requested kind is bound in both the
zone dict and the cluster dict with the requested count within both maxima;
and a request of count 2 against zone max 1 fails with the zone-limit
violation (the zone check, run first, reports `zone` and the zone maximum 1)
even though the cluster max is 4, while a request within both limits
succeeds. -/
theorem claim1_validate_gpu_spec :
    (∀ zone_gpus cluster_gpus,
      validate_gpu_spec zone_gpus cluster_gpus none = Except.ok true) ∧
    (∀ (zg cg : List GPUSpec) (spec : GPUSpec),
      validate_gpu_spec (some zg) (some cg) (some spec) = Except.ok true ↔
        ((∃ zmax, dictGet (pyDict (zg.map fun x => (x.gpu, x.count))) spec.gpu
            = some zmax ∧ spec.count ≤ zmax) ∧
         (∃ cmax, dictGet (pyDict (cg.map fun x => (x.gpu, x.count))) spec.gpu
            = some cmax ∧ spec.count ≤ cmax))) ∧
    (validate_gpu_spec (some [⟨GPU.V100, 1⟩]) (some [⟨GPU.V100, 4⟩])
        (some ⟨GPU.V100, 2⟩) = Except.ok false ∧
     _validate_gpu_spec_against_limits ⟨GPU.V100, 2⟩
        (pyDict [(GPU.V100, 1)]) "zone" = LimitCheck.countExceeded "zone" 1) ∧
    validate_gpu_spec (some [⟨GPU.V100, 1⟩]) (some [⟨GPU.V100, 4⟩])
        (some ⟨GPU.V100, 1⟩) = Except.ok true := by
  refine ⟨fun zg cg => rfl, ?_, ⟨by decide, by decide⟩, by decide⟩
  intro zg cg spec
  rw [← validate_limits_valid_iff spec (pyDict (zg.map fun x => (x.gpu, x.count))) "zone",
      ← validate_limits_valid_iff spec (pyDict (cg.map fun x => (x.gpu, x.count))) "cluster"]
  unfold validate_gpu_spec
  cases hZ : _validate_gpu_spec_against_limits spec
      (pyDict (zg.map fun x => (x.gpu, x.count))) "zone" <;>
    cases hC : _validate_gpu_spec_against_limits spec
        (pyDict (cg.map fun x => (x.gpu, x.count))) "cluster" <;>
      simp [hZ, hC, LimitCheck.result]

/-- Helper: lower-casing never yields an upper-case code point. -/
theorem pyLower_not_upper (c : Nat) : ¬ (65 ≤ pyLower c ∧ pyLower c ≤ 90) := by
  unfold pyLower
  split <;> omega

/-- Helper: an alphanumeric code point is DNS-valid. -/
theorem pyIsAlnum_dnsValid {c : Nat} (h : pyIsAlnum c = true) :
    dnsValidChar c = true := by
  simp [dnsValidChar, h]

/-- Helper: replacing every invalid code point with `-` (45) preserves
non-emptiness, makes every point DNS-valid, keeps the string free of
upper-case points, and fixes an alphanumeric first/last point in place. -/
theorem sanitized_output_ok (L : List Nat) (hne : L ≠ [])
    (hmem : ∀ c ∈ L, ¬ (65 ≤ c ∧ c ≤ 90))
    (hhead : ∃ c0, L.head? = some c0 ∧ pyIsAlnum c0 = true)
    (hlast : ∃ cl, L.getLast? = some cl ∧ pyIsAlnum cl = true) :
    L.map (fun c => if dnsValidChar c then c else 45) ≠ [] ∧
    (∀ c ∈ L.map (fun c => if dnsValidChar c then c else 45), dnsValidChar c = true) ∧
    (∀ c ∈ L.map (fun c => if dnsValidChar c then c else 45), ¬ (65 ≤ c ∧ c ≤ 90)) ∧
    (∃ c0, (L.map (fun c => if dnsValidChar c then c else 45)).head? = some c0 ∧
      pyIsAlnum c0 = true) ∧
    (∃ cl, (L.map (fun c => if dnsValidChar c then c else 45)).getLast? = some cl ∧
      pyIsAlnum cl = true) := by
  obtain ⟨c0, hc0, hc0a⟩ := hhead
  obtain ⟨cl, hcl, hcla⟩ := hlast
  refine ⟨by simpa using hne, ?_, ?_, ?_, ?_⟩
  · intro c hc
    obtain ⟨x, hx, rfl⟩ := List.mem_map.mp hc
    by_cases hd : dnsValidChar x = true
    · rw [if_pos hd]
      exact hd
    · rw [if_neg hd]
      decide
  · intro c hc
    obtain ⟨x, hx, rfl⟩ := List.mem_map.mp hc
    by_cases hd : dnsValidChar x = true
    · rw [if_pos hd]
      exact hmem x hx
    · rw [if_neg hd]
      omega
  · refine ⟨c0, ?_, hc0a⟩
    rw [List.head?_map, hc0]
    simp [pyIsAlnum_dnsValid hc0a]
  · refine ⟨cl, ?_, hcla⟩
    rw [List.getLast?_map, hcl]
    simp [pyIsAlnum_dnsValid hcla]

/-- Helper: every code point of the literal `job-` is below the upper-case
range. -/
theorem job_dash_not_upper : ∀ c ∈ codes "job-", ¬ (65 ≤ c ∧ c ≤ 90) := by
  decide

/-- Helper: every code point of the literal `-0` is below the upper-case
range. -/
theorem dash_zero_not_upper : ∀ c ∈ codes "-0", ¬ (65 ≤ c ∧ c ≤ 90) := by
  decide

/-- Claim C3 counterexample: on the empty input string the code raises
`IndexError` at `name[0]` (modelled as `none`): no sanitized string exists,
so the claim quantified over EVERY input string fails at `""`. -/
theorem claim3_counterexample : _sanitize_job_name [] = none := rfl

/-- Claim C3 as amended: for every NON-EMPTY input string, the sanitizer
succeeds and returns a non-empty, lower-case (no `A`-`Z` code point) string
that starts and ends with an alphanumeric code point and contains only
alphanumerics, `-` and `.`, obtained by lower-casing, prefixing `job-` when
the first character is not alphanumeric, appending `-0` when the last
character is not alphanumeric, and replacing every other invalid character
with `-`; on the empty string the code instead raises `IndexError`. -/
theorem claim3_sanitize_job_name (name : List Nat) (h : name ≠ []) :
    ∃ out, _sanitize_job_name name = some out ∧
      out ≠ [] ∧
      (∀ c ∈ out, dnsValidChar c = true) ∧
      (∀ c ∈ out, ¬ (65 ≤ c ∧ c ≤ 90)) ∧
      (∃ c0, out.head? = some c0 ∧ pyIsAlnum c0 = true) ∧
      (∃ cl, out.getLast? = some cl ∧ pyIsAlnum cl = true) := by
  have hml : name.map pyLower ≠ [] := by simpa using h
  obtain ⟨a, rest, hcons⟩ := List.exists_cons_of_ne_nil hml
  have hLmem : ∀ c ∈ a :: rest, ¬ (65 ≤ c ∧ c ≤ 90) := by
    rw [← hcons]
    intro c hc
    obtain ⟨x, hx, rfl⟩ := List.mem_map.mp hc
    exact pyLower_not_upper x
  by_cases ha : pyIsAlnum a = true
  · rcases hgl : (a :: rest).getLast? with _ | last
    · simp at hgl
    · by_cases hb : pyIsAlnum last = true
      · refine ⟨_, ?_, sanitized_output_ok (a :: rest) (List.cons_ne_nil a rest)
          hLmem ⟨a, List.head?_cons, ha⟩ ⟨last, hgl, hb⟩⟩
        simp only [_sanitize_job_name]
        rw [hcons]
        simp [ha, hgl, hb]
      · refine ⟨_, ?_, sanitized_output_ok ((a :: rest) ++ codes "-0") (by simp)
          ?_ ?_ ?_⟩
        · simp only [_sanitize_job_name]
          rw [hcons]
          simp [ha, hgl, hb]
        · intro c hc
          rcases List.mem_append.mp hc with h1 | h2
          · exact hLmem c h1
          · exact dash_zero_not_upper c h2
        · refine ⟨a, ?_, ha⟩
          rw [List.head?_append_of_ne_nil (a :: rest) (List.cons_ne_nil a rest)]
          exact List.head?_cons
        · refine ⟨48, ?_, by decide⟩
          rw [List.getLast?_append_of_ne_nil (a :: rest) (show codes "-0" ≠ [] from by decide)]
          decide
  · rcases hgl : (codes "job-" ++ (a :: rest)).getLast? with _ | last
    · simp at hgl
    · by_cases hb : pyIsAlnum last = true
      · refine ⟨_, ?_, sanitized_output_ok (codes "job-" ++ (a :: rest)) (by simp)
          ?_ ?_ ⟨last, hgl, hb⟩⟩
        · simp only [_sanitize_job_name]
          rw [hcons]
          simp [ha, hgl, hb]
        · intro c hc
          rcases List.mem_append.mp hc with h1 | h2
          · exact job_dash_not_upper c h1
          · exact hLmem c h2
        · refine ⟨106, ?_, by decide⟩
          rw [List.head?_append_of_ne_nil (codes "job-") (by decide)]
          decide
      · refine ⟨_, ?_, sanitized_output_ok ((codes "job-" ++ (a :: rest)) ++ codes "-0")
          (by simp) ?_ ?_ ?_⟩
        · simp only [_sanitize_job_name]
          rw [hcons]
          simp [ha, hgl, hb]
        · intro c hc
          rcases List.mem_append.mp hc with h1 | h2
          · rcases List.mem_append.mp h1 with h3 | h4
            · exact job_dash_not_upper c h3
            · exact hLmem c h4
          · exact dash_zero_not_upper c h2
        · refine ⟨106, ?_, by decide⟩
          rw [List.head?_append_of_ne_nil (codes "job-" ++ (a :: rest)) (by simp)]
          rw [List.head?_append_of_ne_nil (codes "job-") (by decide)]
          decide
        · refine ⟨48, ?_, by decide⟩
          rw [List.getLast?_append_of_ne_nil (codes "job-" ++ (a :: rest))
            (show codes "-0" ≠ [] from by decide)]
          decide

/-- Witness for claim C3 at the concrete non-empty input `"My Job!"`. -/
theorem claim3_witness :
    ∃ out, _sanitize_job_name (codes "My Job!") = some out ∧
      out ≠ [] ∧
      (∀ c ∈ out, dnsValidChar c = true) ∧
      (∀ c ∈ out, ¬ (65 ≤ c ∧ c ≤ 90)) ∧
      (∃ c0, out.head? = some c0 ∧ pyIsAlnum c0 = true) ∧
      (∃ cl, out.getLast? = some cl ∧ pyIsAlnum cl = true) :=
  claim3_sanitize_job_name (codes "My Job!") (by decide)
